import Mathlib

/-!
Verification of the peripheral sample in
`src/samples/bluetooth/peripheral_fuzz/src/main.c`.

The development shallowly embeds the application-level code of `main.c`:
the custom-attribute read/write handlers (`read_custom`, `write_custom`),
the connection callbacks (`connected`, `disconnected`), the pairing
callbacks, the 2-bit atomic state bitmap, and the exit paths of `main`.
Byte buffers are `List Nat`, machine integers are `Nat`/`Int`, the
GATT error return is `Except`.  Callback bodies are embedded as lists of
atomic steps (`Step`) so that the order in which side effects are issued
is part of the model; the state effect of a callback is obtained by
folding the steps over the bitmap.
-/

/-- Size of the static backing buffer `custom_value[512]` in `main.c`. -/
def custom_value_size : Nat := 512

/-- The ATT error the handlers return, `BT_GATT_ERR(BT_ATT_ERR_INVALID_OFFSET)`. -/
inductive AttErr where
  | invalidOffset
deriving DecidableEq

/-- The initial contents of `custom_value`: the C string "Initial value"
(13 bytes) followed by zero padding up to 512 bytes. -/
def initial_custom_value : List Nat :=
  [73, 110, 105, 116, 105, 97, 108, 32, 118, 97, 108, 117, 101]
    ++ List.replicate 499 0

/-- Modelled from the spec: `bt_gatt_attr_read` is Zephyr stack code that is
not under `src/` (only its caller `read_custom` is).  Per section 4.1 of the
spec, a read returns `min(maxLen, capacity - offset)` bytes starting at
`offset` and fails with `InvalidOffset` if `offset > capacity`.  Here
`value` is the backing buffer, `buf_len` the peer's buffer length (maxLen),
and `value_len` the capacity argument the caller passes. -/
def bt_gatt_attr_read (value : List Nat) (buf_len offset value_len : Nat) :
    Except AttErr (List Nat) :=
  if offset > value_len then
    Except.error AttErr.invalidOffset
  else
    Except.ok ((value.drop offset).take (min buf_len (value_len - offset)))

/-- Embedding of `read_custom` (main.c lines 119-123): forwards to
`bt_gatt_attr_read` with `sizeof(custom_value)` as the length argument.
The embedding is a pure function of the buffer: the read path never
produces a new buffer, which models its freedom from side effects. -/
def read_custom (value : List Nat) (len offset : Nat) :
    Except AttErr (List Nat) :=
  bt_gatt_attr_read value len offset custom_value_size

/-- Embedding of `write_custom` (main.c lines 125-139).  Mirrors the source
order faithfully: the `offset == 0` memset happens BEFORE the
`offset + len > sizeof(custom_value)` bounds check, so even a failing
zero-offset write has already zeroed the buffer.  Returns the ssize_t
result (`Except.ok len` or the ATT error) together with the buffer left
behind by the call. -/
def write_custom (value : List Nat) (offset : Nat) (data : List Nat) :
    Except AttErr Nat × List Nat :=
  let value1 := if offset = 0 then List.replicate custom_value_size 0 else value
  if offset + data.length > custom_value_size then
    (Except.error AttErr.invalidOffset, value1)
  else
    (Except.ok data.length,
      value1.take offset ++ data ++ value1.drop (offset + data.length))

/-- Bit index `STATE_CONNECTED` (main.c line 37). -/
def STATE_CONNECTED : Nat := 1

/-- Bit index `STATE_DISCONNECTED` (main.c line 38). -/
def STATE_DISCONNECTED : Nat := 2

/-- The atomic bitmap `ATOMIC_DEFINE(state, 2U)` (main.c line 35): one field
per bit the program addresses, `connectedBit` for bit `STATE_CONNECTED`
and `disconnectedBit` for bit `STATE_DISCONNECTED`. -/
structure AtomicBitmap where
  connectedBit : Bool
  disconnectedBit : Bool
deriving DecidableEq

/-- The bitmap at boot: no bit set. -/
def init_state : AtomicBitmap := AtomicBitmap.mk false false

/-- Embedding of `atomic_set_bit(state, b)` on the two bits the program uses;
any other bit index leaves the bitmap unchanged. -/
def atomic_set_bit (s : AtomicBitmap) (b : Nat) : AtomicBitmap :=
  if b = STATE_CONNECTED then AtomicBitmap.mk true s.disconnectedBit
  else if b = STATE_DISCONNECTED then AtomicBitmap.mk s.connectedBit true
  else s

/-- Embedding of `atomic_test_and_clear_bit(state, b)`: returns the old bit
value and the bitmap with that bit cleared. -/
def atomic_test_and_clear_bit (s : AtomicBitmap) (b : Nat) :
    Bool × AtomicBitmap :=
  if b = STATE_CONNECTED then
    (s.connectedBit, AtomicBitmap.mk false s.disconnectedBit)
  else if b = STATE_DISCONNECTED then
    (s.disconnectedBit, AtomicBitmap.mk s.connectedBit false)
  else (false, s)

/-- The fixed connection parameters `conn_parameters` (main.c lines 40-41). -/
structure BtLeConnParam where
  interval_min : Nat
  interval_max : Nat
  latency : Nat
  timeout : Nat
deriving DecidableEq

/-- conn_parameters = {.interval_min = 10, .interval_max = 10, .latency = 0,
.timeout = 100} -/
def conn_parameters : BtLeConnParam := BtLeConnParam.mk 10 10 0 100

/-- One atomic action a callback body performs, in source order.  Log lines,
the stack requests (`bt_conn_le_param_update`, `bt_unpair`,
`bt_conn_auth_*`), the bitmap mutations and the semaphore give are each one
step, so the order of side effects is visible in the step list. -/
inductive Step where
  | logConnFailed (err : Nat)
  | logConnected
  | paramUpdateReq (p : BtLeConnParam)
  | logDisconnected (reason : Nat)
  | unpairReq
  | setBit (b : Nat)
  | semGive
  | logEnterPasskey
  | logEnterConfirm
  | logPairingConfirm
  | passkeyEntryReq (conn passkey : Nat)
  | passkeyConfirmReq (conn : Nat)
  | pairingConfirmReq (conn : Nat)
deriving DecidableEq

/-- State effect of one step: only `setBit` touches the bitmap. -/
def runStep (s : AtomicBitmap) : Step → AtomicBitmap
  | Step.setBit b => atomic_set_bit s b
  | _ => s

/-- Embedding of the `connected` callback body (main.c lines 43-53) as its
sequence of steps: on failure only a log line; on success the log, the
`atomic_set_bit(state, STATE_CONNECTED)` and the parameter-update request,
in that order. -/
def connected_steps (err : Nat) : List Step :=
  if err ≠ 0 then [Step.logConnFailed err]
  else [Step.logConnected, Step.setBit STATE_CONNECTED,
        Step.paramUpdateReq conn_parameters]

/-- State effect of the `connected` callback. -/
def connected_state (s : AtomicBitmap) (err : Nat) : AtomicBitmap :=
  (connected_steps err).foldl runStep s

/-- Embedding of the `disconnected` callback body (main.c lines 55-61) as its
sequence of steps: log, `bt_unpair`, `atomic_set_bit(state,
STATE_DISCONNECTED)`, `k_sem_give`, in source order. -/
def disconnected_steps (reason : Nat) : List Step :=
  [Step.logDisconnected reason, Step.unpairReq,
   Step.setBit STATE_DISCONNECTED, Step.semGive]

/-- State effect of the `disconnected` callback. -/
def disconnected_state (s : AtomicBitmap) (reason : Nat) : AtomicBitmap :=
  (disconnected_steps reason).foldl runStep s

/-- Embedding of `enter_passkey` (main.c lines 86-90): log, then
`bt_conn_auth_passkey_entry(conn, 0)` with the hard-coded passkey 0. -/
def enter_passkey (conn : Nat) : List Step :=
  [Step.logEnterPasskey, Step.passkeyEntryReq conn 0]

/-- Embedding of `confirm_passkey` (main.c lines 92-96): log, then
`bt_conn_auth_passkey_confirm(conn)`; the displayed `passkey` argument is
never inspected. -/
def confirm_passkey (conn : Nat) (passkey : Nat) : List Step :=
  [Step.logEnterConfirm, Step.passkeyConfirmReq conn]

/-- Embedding of `confirm_pairing` (main.c lines 98-102): log, then
`bt_conn_auth_pairing_confirm(conn)`. -/
def confirm_pairing (conn : Nat) : List Step :=
  [Step.logPairingConfirm, Step.pairingConfirmReq conn]

/-- Embedding of one iteration of the main loop body after the semaphore is
taken (main.c lines 218-227): `atomic_test_and_clear_bit(state,
STATE_DISCONNECTED)`, and if the bit was set, one `bt_le_adv_start`
attempt.  Returns the new bitmap and the number of advertising restart
attempts made in this iteration. -/
def drain_once (s : AtomicBitmap) : AtomicBitmap × Nat :=
  let tc := atomic_test_and_clear_bit s STATE_DISCONNECTED
  if tc.1 then (tc.2, 1) else (tc.2, 0)

/-- One event of the whole system acting on the bitmap: a connect callback,
a disconnect callback, or one main-loop drain iteration. -/
inductive SysEvent where
  | connectEv (err : Nat)
  | disconnectEv (reason : Nat)
  | drainEv

/-- State effect of one system event on the bitmap. -/
def sysStep (s : AtomicBitmap) : SysEvent → AtomicBitmap
  | SysEvent.connectEv err => connected_state s err
  | SysEvent.disconnectEv reason => disconnected_state s reason
  | SysEvent.drainEv => (drain_once s).1

/-- Exit code of the advertising loop of `main` (main.c lines 217-228),
given the error codes of the successive `bt_le_adv_start` calls it
observes: the first nonzero error makes the program return 0; if no listed
attempt fails the loop is still running (`none`). -/
def loop_advertise : List Int → Option Nat
  | [] => none
  | e :: rest => if e ≠ 0 then some 0 else loop_advertise rest

/-- Exit code of `main` (main.c lines 175-230) as a function of the
environment: the `bt_enable` error and the error codes of the successive
`bt_le_adv_start` calls (the boot-time one first, then one per restart).
`some c` means the program terminates with exit code `c`; `none` means it
is still in the advertising loop. -/
def main_exit (enable_err : Int) (adv_errs : List Int) : Option Nat :=
  if enable_err ≠ 0 then some 0 else loop_advertise adv_errs

/-- True on the parameter-update request step. -/
def isParamUpdate : Step → Bool
  | Step.paramUpdateReq _ => true
  | _ => false

/-- True on the unpair request step. -/
def isUnpair : Step → Bool
  | Step.unpairReq => true
  | _ => false

/-- True on the step that sets the disconnected bit. -/
def isSetDisconnected : Step → Bool
  | Step.setBit b => b == STATE_DISCONNECTED
  | _ => false

/-- True on the semaphore-give step. -/
def isSemGive : Step → Bool
  | Step.semGive => true
  | _ => false

/-- Characterization of a failing write: when the bounds check trips, the
call returns the ATT error and leaves behind the buffer as of after the
(possibly already performed) zero-offset memset. -/
lemma write_custom_err (value : List Nat) (offset : Nat) (data : List Nat)
    (h : custom_value_size < offset + data.length) :
    write_custom value offset data =
      (Except.error AttErr.invalidOffset,
        if offset = 0 then List.replicate custom_value_size 0 else value) := by
  simp only [write_custom]
  rw [if_pos (by omega : offset + data.length > custom_value_size)]

/-- Characterization of a successful write: the accepted length is returned
and `data` is spliced into the (possibly zeroed) buffer at `offset`. -/
lemma write_custom_ok (value : List Nat) (offset : Nat) (data : List Nat)
    (h : offset + data.length ≤ custom_value_size) :
    write_custom value offset data =
      (Except.ok data.length,
        (if offset = 0 then List.replicate custom_value_size 0 else value).take
            offset
          ++ data
          ++ (if offset = 0 then List.replicate custom_value_size 0
              else value).drop (offset + data.length)) := by
  simp only [write_custom]
  rw [if_neg (by omega : ¬ offset + data.length > custom_value_size)]

/-- Characterization of an in-bounds read. -/
lemma read_custom_eq (value : List Nat) (len offset : Nat)
    (h : offset ≤ custom_value_size) :
    read_custom value len offset =
      Except.ok ((value.drop offset).take
        (min len (custom_value_size - offset))) := by
  unfold read_custom bt_gatt_attr_read
  rw [if_neg (by omega : ¬ offset > custom_value_size)]

set_option maxRecDepth 10000 in
/-- C1, counterexample: the claim says the buffer is left unchanged by a
failed out-of-bounds write "including when offset == 0", but in
`write_custom` the zero-offset memset runs before the bounds check, so the
failed call `write(0, 513 bytes)` on the initial buffer returns
InvalidOffset yet leaves a buffer different from the one it started with. -/
theorem write_overflow_at_zero_clobbers :
    (write_custom initial_custom_value 0 (List.replicate 513 1)).1
        = Except.error AttErr.invalidOffset
    ∧ (write_custom initial_custom_value 0 (List.replicate 513 1)).2
        ≠ initial_custom_value := by
  constructor
  · rfl
  · decide

/-- C1, amended: every write with `offset + len(data) > 512` fails with
InvalidOffset; the buffer is unchanged when `offset ≠ 0`, but when
`offset == 0` the failed call leaves the buffer fully zeroed. -/
theorem write_overflow_fails (buf : List Nat) (offset : Nat) (data : List Nat)
    (hover : custom_value_size < offset + data.length) :
    (write_custom buf offset data).1 = Except.error AttErr.invalidOffset
    ∧ (offset ≠ 0 → (write_custom buf offset data).2 = buf)
    ∧ (offset = 0 →
        (write_custom buf offset data).2
          = List.replicate custom_value_size 0) := by
  rw [write_custom_err buf offset data hover]
  refine ⟨rfl, ?_, ?_⟩
  · intro h0
    simp [h0]
  · intro h0
    simp [h0]

set_option maxRecDepth 10000 in
/-- C1 witness: the spec's own scenario, `write(offset=500, data=20 bytes)`
against capacity 512, fails with InvalidOffset. -/
theorem write_overflow_fails_witness :
    custom_value_size < 500 + (List.replicate 20 7).length
    ∧ (write_custom initial_custom_value 500 (List.replicate 20 7)).1
        = Except.error AttErr.invalidOffset
    ∧ (write_custom initial_custom_value 500 (List.replicate 20 7)).2
        = initial_custom_value :=
  ⟨by decide,
   (write_overflow_fails initial_custom_value 500 (List.replicate 20 7)
      (by decide)).1,
   (write_overflow_fails initial_custom_value 500 (List.replicate 20 7)
      (by decide)).2.1 (by decide)⟩

/-- C2: for every in-bounds write (`offset + len(data) <= 512`) on a
full-size buffer, the write succeeds returning the accepted length, and a
subsequent `read(offset, len(data))` returns exactly the written data. -/
theorem write_then_read_roundtrip (buf : List Nat) (offset : Nat)
    (data : List Nat) (hbuf : buf.length = custom_value_size)
    (hfit : offset + data.length ≤ custom_value_size) :
    (write_custom buf offset data).1 = Except.ok data.length
    ∧ read_custom (write_custom buf offset data).2 data.length offset
        = Except.ok data := by
  rw [write_custom_ok buf offset data hfit]
  refine ⟨rfl, ?_⟩
  have hv : (if offset = 0 then List.replicate custom_value_size 0
      else buf).length = custom_value_size := by
    split
    · simp
    · exact hbuf
  rw [read_custom_eq _ _ _ (by omega)]
  have hmin : min data.length (custom_value_size - offset) = data.length := by
    omega
  rw [hmin]
  have htl : ((if offset = 0 then List.replicate custom_value_size 0
      else buf).take offset).length = offset := by
    rw [List.length_take]
    omega
  rw [List.append_assoc, List.drop_left' htl, List.take_left]

set_option maxRecDepth 10000 in
/-- C2 witness: writing bytes 5, 6, 7 at offset 1 and reading 3 bytes back
at offset 1 returns exactly those bytes. -/
theorem write_then_read_roundtrip_witness :
    initial_custom_value.length = custom_value_size
    ∧ 1 + ([5, 6, 7] : List Nat).length ≤ custom_value_size
    ∧ read_custom (write_custom initial_custom_value 1 [5, 6, 7]).2
        ([5, 6, 7] : List Nat).length 1 = Except.ok [5, 6, 7] :=
  ⟨by decide, by decide,
   (write_then_read_roundtrip initial_custom_value 1 [5, 6, 7]
      (by decide) (by decide)).2⟩

set_option maxRecDepth 10000 in
/-- C3: a successful write at offset 0 first zeroes the whole buffer, so
after a 64-byte write at offset 0 followed by a 10-byte write at offset 0,
reading 10 bytes at offset 20 returns 10 zero bytes: the stale tail of the
earlier, longer value has been cleared. -/
theorem zero_offset_write_clears_tail (buf d64 d10 : List Nat)
    (h64 : d64.length = 64) (h10 : d10.length = 10) :
    read_custom (write_custom (write_custom buf 0 d64).2 0 d10).2 10 20
      = Except.ok (List.replicate 10 0) := by
  rw [write_custom_ok _ 0 d10 (by simp only [custom_value_size]; omega)]
  simp only [reduceIte, List.take_zero, List.nil_append, Nat.zero_add]
  rw [read_custom_eq _ _ _ (by norm_num [custom_value_size])]
  rw [show (20 : Nat) = d10.length + 10 by omega]
  rw [List.drop_append]
  simp [List.drop_replicate, List.take_replicate, h10, custom_value_size]

set_option maxRecDepth 10000 in
/-- C3 witness: the spec scenario run on the initial buffer with concrete
64-byte and 10-byte payloads. -/
theorem zero_offset_write_clears_tail_witness :
    (List.replicate 64 3).length = 64
    ∧ (List.replicate 10 4).length = 10
    ∧ read_custom
        (write_custom (write_custom initial_custom_value 0
          (List.replicate 64 3)).2 0 (List.replicate 10 4)).2 10 20
      = Except.ok (List.replicate 10 0) :=
  ⟨by decide, by decide,
   zero_offset_write_clears_tail initial_custom_value (List.replicate 64 3)
     (List.replicate 10 4) (by decide) (by decide)⟩

/-- C4: the read contract on a full-size buffer.  When `offset > 512` the
read fails with InvalidOffset; when `offset <= 512` it succeeds with a
result of exactly `min(maxLen, 512 - offset)` bytes whose i-th byte is the
buffer byte at `offset + i`.  The embedding of the read path is a pure
function of the buffer, modelling that a read never mutates it. -/
theorem read_contract (buf : List Nat) (maxLen offset : Nat)
    (hbuf : buf.length = custom_value_size) :
    (custom_value_size < offset →
        read_custom buf maxLen offset = Except.error AttErr.invalidOffset)
    ∧ (offset ≤ custom_value_size →
        ∃ out, read_custom buf maxLen offset = Except.ok out
          ∧ out.length = min maxLen (custom_value_size - offset)
          ∧ ∀ i, i < out.length → out[i]? = buf[offset + i]?) := by
  constructor
  · intro h
    unfold read_custom bt_gatt_attr_read
    rw [if_pos (by omega : offset > custom_value_size)]
  · intro h
    rw [read_custom_eq _ _ _ h]
    refine ⟨_, rfl, ?_, ?_⟩
    · rw [List.length_take, List.length_drop, hbuf]
      omega
    · intro i hi
      rw [List.length_take, List.length_drop, hbuf] at hi
      rw [List.getElem?_take, if_pos (by omega), List.getElem?_drop]

set_option maxRecDepth 10000 in
/-- C4 witness: a read at offset 513 fails with InvalidOffset, and a read
of up to 600 bytes at offset 500 returns exactly 12 bytes. -/
theorem read_contract_witness :
    read_custom initial_custom_value 600 513 = Except.error AttErr.invalidOffset
    ∧ ∃ out, read_custom initial_custom_value 600 500 = Except.ok out
        ∧ out.length = min 600 (custom_value_size - 500)
        ∧ ∀ i, i < out.length → out[i]? = initial_custom_value[500 + i]? :=
  ⟨(read_contract initial_custom_value 600 513 (by decide)).1 (by decide),
   (read_contract initial_custom_value 600 500 (by decide)).2 (by decide)⟩

/-- The disconnect callback always leaves the connected bit alone and sets
the disconnected bit. -/
lemma disconnected_state_eq (s : AtomicBitmap) (reason : Nat) :
    disconnected_state s reason = AtomicBitmap.mk s.connectedBit true := rfl

/-- Folding any sequence of disconnect callbacks over the bitmap sets the
disconnected bit exactly when the bit was already set or the sequence is
nonempty. -/
lemma foldl_disconnected_disc (rs : List Nat) (s : AtomicBitmap) :
    (List.foldl disconnected_state s rs).disconnectedBit
      = (s.disconnectedBit || !rs.isEmpty) := by
  induction rs generalizing s with
  | nil => simp
  | cons r rest ih =>
    simp [List.foldl_cons, ih, disconnected_state_eq]

/-- C5: a failed connect event leaves the bitmap unchanged and issues no
parameter-update request; a successful connect event sets the connected
bit (and no other bit) and issues exactly one parameter-update request,
carrying the fixed `conn_parameters`. -/
theorem connected_handler_contract (s : AtomicBitmap) (err : Nat) :
    (err ≠ 0 → connected_state s err = s
        ∧ (connected_steps err).countP isParamUpdate = 0)
    ∧ (err = 0 → (connected_state s err).connectedBit = true
        ∧ (connected_state s err).disconnectedBit = s.disconnectedBit
        ∧ (connected_steps err).countP isParamUpdate = 1
        ∧ Step.paramUpdateReq conn_parameters ∈ connected_steps err) := by
  constructor
  · intro h
    constructor
    · simp [connected_state, connected_steps, h, runStep]
    · simp [connected_steps, h, List.countP_cons, isParamUpdate]
  · intro h
    subst h
    refine ⟨?_, ?_, ?_, ?_⟩ <;>
      simp [connected_state, connected_steps, runStep, atomic_set_bit,
            STATE_CONNECTED, STATE_DISCONNECTED, List.countP_cons,
            isParamUpdate]

/-- C5 witness: a failed connect (err 1) from the boot bitmap changes
nothing; a successful connect (err 0) sets the connected bit. -/
theorem connected_handler_contract_witness :
    connected_state init_state 1 = init_state
    ∧ (connected_state init_state 0).connectedBit = true :=
  ⟨((connected_handler_contract init_state 1).1 (by decide)).1,
   ((connected_handler_contract init_state 0).2 rfl).1⟩

/-- C6: for every disconnect reason, the disconnect callback performs
exactly one unpair request, one set of the disconnected bit and one
semaphore give, and the unpair request comes strictly before the bit is
set, which comes strictly before the main loop is signalled. -/
theorem unpair_before_flag_before_signal (reason : Nat) :
    ∃ i j k : Nat, i < j ∧ j < k
      ∧ (disconnected_steps reason)[i]? = some Step.unpairReq
      ∧ (disconnected_steps reason)[j]?
          = some (Step.setBit STATE_DISCONNECTED)
      ∧ (disconnected_steps reason)[k]? = some Step.semGive
      ∧ (disconnected_steps reason).countP isUnpair = 1
      ∧ (disconnected_steps reason).countP isSetDisconnected = 1
      ∧ (disconnected_steps reason).countP isSemGive = 1 := by
  refine ⟨1, 2, 3, by omega, by omega, rfl, rfl, rfl, ?_, ?_, ?_⟩ <;>
    simp [disconnected_steps, List.countP_cons, isUnpair, isSetDisconnected,
          isSemGive, STATE_DISCONNECTED]

/-- C7: after a successful connect and any nonempty burst of disconnect
events, the first main-loop drain performs exactly one advertising restart
and a second drain performs none: the atomic test-and-clear makes
repeated flag sets cause a single restart. -/
theorem single_restart_per_drain (reasons : List Nat) (hne : reasons ≠ []) :
    (drain_once (List.foldl disconnected_state
        (connected_state init_state 0) reasons)).2 = 1
    ∧ (drain_once (drain_once (List.foldl disconnected_state
        (connected_state init_state 0) reasons)).1).2 = 0 := by
  have h1 : (List.foldl disconnected_state
      (connected_state init_state 0) reasons).disconnectedBit = true := by
    cases reasons with
    | nil => exact absurd rfl hne
    | cons r rest =>
      rw [foldl_disconnected_disc]
      simp
  constructor
  · simp [drain_once, atomic_test_and_clear_bit, STATE_CONNECTED,
          STATE_DISCONNECTED, h1]
  · simp [drain_once, atomic_test_and_clear_bit, STATE_CONNECTED,
          STATE_DISCONNECTED, h1]

/-- C7 witness: one disconnect with reason 0x13 (= 19) before the drain. -/
theorem single_restart_per_drain_witness :
    ([19] : List Nat) ≠ []
    ∧ (drain_once (List.foldl disconnected_state
        (connected_state init_state 0) [19])).2 = 1 :=
  ⟨by decide, (single_restart_per_drain [19] (by decide)).1⟩

/-- C8: the pairing policy is fixed and non-interactive: `enter_passkey`
always supplies the hard-coded passkey 0; `confirm_passkey` behaves
identically whatever passkey is displayed and always issues the
confirmation; `confirm_pairing` always issues the confirmation. -/
theorem pairing_policy_fixed (conn k1 k2 : Nat) :
    enter_passkey conn = [Step.logEnterPasskey, Step.passkeyEntryReq conn 0]
    ∧ confirm_passkey conn k1 = confirm_passkey conn k2
    ∧ Step.passkeyConfirmReq conn ∈ confirm_passkey conn k1
    ∧ Step.pairingConfirmReq conn ∈ confirm_pairing conn := by
  refine ⟨rfl, rfl, ?_, ?_⟩ <;> simp [confirm_passkey, confirm_pairing]

/-- Every exit taken from inside the advertising loop carries exit code 0. -/
lemma loop_advertise_zero (l : List Int) (c : Nat)
    (h : loop_advertise l = some c) : c = 0 := by
  induction l with
  | nil => simp [loop_advertise] at h
  | cons e rest ih =>
    simp only [loop_advertise] at h
    split at h
    · exact (Option.some_inj.mp h).symm
    · exact ih h

/-- C9: every termination path of `main` returns exit code 0, whether
`bt_enable` fails, the boot-time advertising start fails, or a restart
inside the loop fails. -/
theorem main_exit_code_zero (enable_err : Int) (adv_errs : List Int)
    (c : Nat) (h : main_exit enable_err adv_errs = some c) : c = 0 := by
  unfold main_exit at h
  split at h
  · exact (Option.some_inj.mp h).symm
  · exact loop_advertise_zero adv_errs c h

/-- C9 witness: a bring-up failure (bt_enable returning -5) terminates the
program with exit code 0. -/
theorem main_exit_code_zero_witness :
    main_exit (-5) [] = some 0 ∧ (0 : Nat) = 0 :=
  ⟨by decide, main_exit_code_zero (-5) [] 0 (by decide)⟩

/-- C10: the main-loop drain clears only the disconnected bit, leaving the
connected bit as it was, and no system event (connect callback, disconnect
callback, or drain) ever resets a connected bit that is set. -/
theorem connected_flag_never_cleared (s : AtomicBitmap) (e : SysEvent) :
    ((drain_once s).1).connectedBit = s.connectedBit
    ∧ (s.connectedBit = true → (sysStep s e).connectedBit = true) := by
  have hd : ((drain_once s).1).connectedBit = s.connectedBit := by
    simp only [drain_once]
    split <;>
      simp [atomic_test_and_clear_bit, STATE_CONNECTED, STATE_DISCONNECTED]
  refine ⟨hd, ?_⟩
  intro h
  cases e with
  | connectEv err =>
    by_cases he : err = 0
    · subst he
      simp [sysStep, connected_state, connected_steps, runStep,
            atomic_set_bit, STATE_CONNECTED]
    · simp [sysStep, connected_state, connected_steps, he, runStep, h]
  | disconnectEv reason =>
    simp [sysStep, disconnected_state_eq, h]
  | drainEv =>
    simp only [sysStep]
    rw [hd]
    exact h

/-- C10 witness: a drain on a bitmap whose connected bit is set leaves the
connected bit set. -/
theorem connected_flag_never_cleared_witness :
    (sysStep (AtomicBitmap.mk true false) SysEvent.drainEv).connectedBit
      = true :=
  (connected_flag_never_cleared (AtomicBitmap.mk true false)
      SysEvent.drainEv).2 rfl
